import Mathlib

/-!
Verification of the capture/deduplication pipeline of
`memory-capture-franklin.py` (the "Capture Pipeline" of the design note).

The Python functions are embedded shallowly:

* pure string functions (`is_important`, `get_category`, `get_hash`,
  `extract_text_content`) become Lean functions over `String`/`JVal`;
* the stream-log file becomes an explicit state record `FS`
  (`stream : Option String`, `none` = file does not exist), threaded
  through `already_captured`, `append_to_stream` and `main`;
* the external CLI (`subprocess.run` of `openclaw`) and `json.loads`
  become an environment `Env` supplying the outcome of each call;
* Python exceptions become `Except String` values; an uncaught exception
  surfaces as an `Option String` error component of a result.

All machine arithmetic is `Nat` with explicit `% 2^32` reductions
(the MD5 digest of `get_hash` is implemented bit-for-bit).
-/

set_option maxRecDepth 40000

/-! ## Python string primitives -/

/-- Byte-level `&&&` etc. are `Nat` operations throughout; strings are
lists of unicode scalar values, matching Python `str` code points.
`listPrefixOf p l` decides whether `p` is a prefix of `l`. -/
def listPrefixOf : List Char → List Char → Bool
  | [], _ => true
  | _ :: _, [] => false
  | a :: as, b :: bs => a == b && listPrefixOf as bs

/-- `hasSub p l` decides whether `p` occurs contiguously inside `l`:
the Python expression `p in l` on strings. -/
def hasSub (p : List Char) : List Char → Bool
  | [] => listPrefixOf p []
  | c :: rest => listPrefixOf p (c :: rest) || hasSub p rest

/-- Python `pat in s` on strings (contiguous substring containment). -/
def strContains (s pat : String) : Bool :=
  hasSub pat.data s.data

/-- ASCII case folding of one character. -/
def lowerChar (c : Char) : Char :=
  if 'A' ≤ c && c ≤ 'Z' then Char.ofNat (c.toNat + 32) else c

/-- Python `str.lower()` restricted to ASCII case folding (every string
the scripts compare against is ASCII; Unicode case folding is not
modelled). -/
def pyLower (s : String) : String :=
  ⟨s.data.map lowerChar⟩

/-- Python whitespace for `str.strip()` (ASCII whitespace as stripped by
`strip()` with no argument). -/
def isPySpace (c : Char) : Bool :=
  c == ' ' || c == '\t' || c == '\n' || c == '\r' || c == '\x0b' || c == '\x0c'

/-- Python `str.strip()`. -/
def pyStrip (s : String) : String :=
  ⟨((s.data.dropWhile isPySpace).reverse.dropWhile isPySpace).reverse⟩

/-! ## `get_hash`: MD5, truncated to 16 hex characters

`get_hash(text)` in the source is
`hashlib.md5(text.encode()).hexdigest()[:16]`.  We implement MD5 over
the UTF-8 encoding of the text, all words as `Nat` reduced mod `2^32`. -/

/-- UTF-8 encoding of one unicode scalar value, as bytes (each `< 256`). -/
def charUtf8 (c : Char) : List Nat :=
  let n := c.toNat
  if n < 0x80 then [n]
  else if n < 0x800 then
    [0xC0 ||| (n >>> 6), 0x80 ||| (n &&& 0x3F)]
  else if n < 0x10000 then
    [0xE0 ||| (n >>> 12), 0x80 ||| ((n >>> 6) &&& 0x3F), 0x80 ||| (n &&& 0x3F)]
  else
    [0xF0 ||| (n >>> 18), 0x80 ||| ((n >>> 12) &&& 0x3F),
     0x80 ||| ((n >>> 6) &&& 0x3F), 0x80 ||| (n &&& 0x3F)]

/-- Python `text.encode()`: the UTF-8 bytes of the string. -/
def utf8Bytes (s : String) : List Nat :=
  s.data.flatMap charUtf8

/-- The 64 MD5 round constants `K[i] = floor(2^32 * |sin(i+1)|)`. -/
def md5K : List Nat :=
  [0xd76aa478, 0xe8c7b756, 0x242070db, 0xc1bdceee,
   0xf57c0faf, 0x4787c62a, 0xa8304613, 0xfd469501,
   0x698098d8, 0x8b44f7af, 0xffff5bb1, 0x895cd7be,
   0x6b901122, 0xfd987193, 0xa679438e, 0x49b40821,
   0xf61e2562, 0xc040b340, 0x265e5a51, 0xe9b6c7aa,
   0xd62f105d, 0x02441453, 0xd8a1e681, 0xe7d3fbc8,
   0x21e1cde6, 0xc33707d6, 0xf4d50d87, 0x455a14ed,
   0xa9e3e905, 0xfcefa3f8, 0x676f02d9, 0x8d2a4c8a,
   0xfffa3942, 0x8771f681, 0x6d9d6122, 0xfde5380c,
   0xa4beea44, 0x4bdecfa9, 0xf6bb4b60, 0xbebfbc70,
   0x289b7ec6, 0xeaa127fa, 0xd4ef3085, 0x04881d05,
   0xd9d4d039, 0xe6db99e5, 0x1fa27cf8, 0xc4ac5665,
   0xf4292244, 0x432aff97, 0xab9423a7, 0xfc93a039,
   0x655b59c3, 0x8f0ccc92, 0xffeff47d, 0x85845dd1,
   0x6fa87e4f, 0xfe2ce6e0, 0xa3014314, 0x4e0811a1,
   0xf7537e82, 0xbd3af235, 0x2ad7d2bb, 0xeb86d391]

/-- The 64 MD5 per-round left-rotation amounts. -/
def md5S : List Nat :=
  [7, 12, 17, 22, 7, 12, 17, 22, 7, 12, 17, 22, 7, 12, 17, 22,
   5, 9, 14, 20, 5, 9, 14, 20, 5, 9, 14, 20, 5, 9, 14, 20,
   4, 11, 16, 23, 4, 11, 16, 23, 4, 11, 16, 23, 4, 11, 16, 23,
   6, 10, 15, 21, 6, 10, 15, 21, 6, 10, 15, 21, 6, 10, 15, 21]

/-- 32-bit complement. -/
def not32 (x : Nat) : Nat := x ^^^ 0xFFFFFFFF

/-- 32-bit left rotation. -/
def rotl32 (x n : Nat) : Nat :=
  ((x <<< n) &&& 0xFFFFFFFF) ||| (x >>> (32 - n))

/-- Little-endian byte expansion, `k` bytes. -/
def leBytes : Nat → Nat → List Nat
  | 0, _ => []
  | k + 1, n => (n % 256) :: leBytes k (n / 256)

/-- MD5 padding: append `0x80`, zero bytes to 56 mod 64, then the
64-bit little-endian bit length. -/
def md5Pad (msg : List Nat) : List Nat :=
  msg ++ [0x80] ++ List.replicate ((119 - (msg.length % 64)) % 64) 0
      ++ leBytes 8 ((msg.length * 8) % (2 ^ 64))

/-- Split a byte list into 64-byte chunks (structural recursion on a
fuel counter so the definition reduces in the kernel; the fuel
`l.length` always suffices since each step consumes at least one byte). -/
def toChunksAux : Nat → List Nat → List (List Nat)
  | _, [] => []
  | 0, _ :: _ => []
  | fuel + 1, c :: rest =>
      (c :: rest).take 64 :: toChunksAux fuel ((c :: rest).drop 64)

/-- Split a byte list into 64-byte chunks. -/
def toChunks (l : List Nat) : List (List Nat) :=
  toChunksAux l.length l

/-- The sixteen 32-bit little-endian words of one 64-byte chunk. -/
def chunkWords (chunk : List Nat) : List Nat :=
  (List.range 16).map fun j =>
    chunk.getD (4 * j) 0 + 256 * chunk.getD (4 * j + 1) 0
      + 65536 * chunk.getD (4 * j + 2) 0 + 16777216 * chunk.getD (4 * j + 3) 0

/-- One MD5 operation (round `i`) on the running state `(a, b, c, d)`. -/
def md5Step (M : List Nat) (st : Nat × Nat × Nat × Nat) (i : Nat) :
    Nat × Nat × Nat × Nat :=
  let (a, b, c, d) := st
  let fg : Nat × Nat :=
    if i < 16 then ((b &&& c) ||| (not32 b &&& d), i)
    else if i < 32 then ((d &&& b) ||| (not32 d &&& c), (5 * i + 1) % 16)
    else if i < 48 then (b ^^^ c ^^^ d, (3 * i + 5) % 16)
    else (c ^^^ (b ||| not32 d), (7 * i) % 16)
  let f2 := (fg.1 + a + md5K.getD i 0 + M.getD fg.2 0) % (2 ^ 32)
  (d, (b + rotl32 f2 (md5S.getD i 0)) % (2 ^ 32), b, c)

/-- Process one 64-byte chunk, updating the four state words. -/
def md5Chunk (st : Nat × Nat × Nat × Nat) (chunk : List Nat) :
    Nat × Nat × Nat × Nat :=
  let M := chunkWords chunk
  let r := (List.range 64).foldl (md5Step M) st
  ((st.1 + r.1) % (2 ^ 32), (st.2.1 + r.2.1) % (2 ^ 32),
   (st.2.2.1 + r.2.2.1) % (2 ^ 32), (st.2.2.2 + r.2.2.2) % (2 ^ 32))

/-- One hex digit, lowercase. -/
def hexChar (n : Nat) : Char :=
  if n < 10 then Char.ofNat (48 + n) else Char.ofNat (87 + n)

/-- Two lowercase hex digits of one byte. -/
def byteHex (b : Nat) : List Char :=
  [hexChar (b / 16), hexChar (b % 16)]

/-- `hashlib.md5(bytes).hexdigest()`: the 32-character lowercase hex MD5
digest of a byte list. -/
def md5Hex (msg : List Nat) : String :=
  let st := (toChunks (md5Pad msg)).foldl md5Chunk
    (0x67452301, 0xefcdab89, 0x98badcfe, 0x10325476)
  ⟨(leBytes 4 st.1 ++ leBytes 4 st.2.1 ++ leBytes 4 st.2.2.1
      ++ leBytes 4 st.2.2.2).flatMap byteHex⟩

/-- Python slicing `s[:n]` on a string: the first `n` code points. -/
def strTake (s : String) (n : Nat) : String :=
  ⟨s.data.take n⟩

/-- `get_hash(text)` (source lines 119–120):
`hashlib.md5(text.encode()).hexdigest()[:16]`. -/
def get_hash (text : String) : String :=
  strTake (md5Hex (utf8Bytes text)) 16

/-! ## Keyword heuristics: `is_important`, `get_category` -/

/-- The fixed keyword list of `is_important` (source lines 94–100), in
source order. -/
def keywords : List String :=
  ["decided", "decision", "determined", "choose", "selected", "committed",
   "discovered", "found", "realized", "learned", "insight", "identified",
   "implemented", "built", "created", "fixed", "solved", "completed",
   "issue", "problem", "bug", "error", "blocker", "blocked",
   "success", "succeeded", "working", "resolved", "achieved"]

/-- The generator expression `any(kw in text_lower for kw in kws)` used
by both `is_important` and `get_category`. -/
def anyKw (kws : List String) (text_lower : String) : Bool :=
  kws.any (fun kw => strContains text_lower kw)

/-- `is_important(text)` (source lines 92–102):
`any(kw in text.lower() for kw in keywords) and len(text) > 40`. -/
def is_important (text : String) : Bool :=
  let text_lower := pyLower text
  anyKw keywords text_lower && decide (40 < text.length)

/-- The keyword group of the `decision` branch of `get_category`. -/
def decisionKws : List String := ["decided", "decision", "determined"]

/-- The keyword group of the `discovery` branch of `get_category`. -/
def discoveryKws : List String := ["discovered", "found", "realized", "insight"]

/-- The keyword group of the `implementation` branch of `get_category`. -/
def implementationKws : List String := ["implemented", "built", "created", "fixed"]

/-- The keyword group of the `issue` branch of `get_category`. -/
def issueKws : List String := ["issue", "problem", "bug", "error", "blocker"]

/-- The keyword group of the `success` branch of `get_category`. -/
def successKws : List String := ["success", "succeeded", "resolved", "completed"]

/-- `get_category(text)` (source lines 104–117): the first matching
keyword group in source order, else `"outcome"`. -/
def get_category (text : String) : String :=
  let text_lower := pyLower text
  if anyKw decisionKws text_lower then "decision"
  else if anyKw discoveryKws text_lower then "discovery"
  else if anyKw implementationKws text_lower then "implementation"
  else if anyKw issueKws text_lower then "issue"
  else if anyKw successKws text_lower then "success"
  else "outcome"

/-! ## Python-level JSON values

`json.loads` yields Python dicts / lists / strs / numbers / bools /
`None`; `JVal` models these.  Numbers are modelled as integers (no
claim involves fractional JSON numbers). -/

/-- A parsed JSON value as the Python code sees it. -/
inductive JVal where
  | null : JVal
  | bool (b : Bool) : JVal
  | num (n : Int) : JVal
  | str (s : String) : JVal
  | arr (xs : List JVal) : JVal
  | obj (kvs : List (String × JVal)) : JVal

/-- Dict lookup, later bindings shadowing earlier ones (as `json.loads`
keeps the last duplicate key). -/
def jLookup : List (String × JVal) → String → Option JVal
  | [], _ => none
  | (k, v) :: rest, key =>
    match jLookup rest key with
    | some w => some w
    | none => if k == key then some v else none

/-- Python `d.get(key)` (default `None`); raises `AttributeError` on a
non-dict receiver. -/
def jGet (j : JVal) (key : String) : Except String JVal :=
  match j with
  | .obj kvs => .ok ((jLookup kvs key).getD .null)
  | _ => .error "AttributeError: object has no attribute get"

/-- Python `d.get(key, default)`; raises `AttributeError` on a non-dict
receiver. -/
def jGetD (j : JVal) (key : String) (default : JVal) : Except String JVal :=
  match j with
  | .obj kvs => .ok ((jLookup kvs key).getD default)
  | _ => .error "AttributeError: object has no attribute get"

/-- Python `==` between a JSON value and a string literal: true only
when the value is that string (cross-type `==` is `False`, never an
error). -/
def pyEqStr (j : JVal) (s : String) : Bool :=
  match j with
  | .str t => t == s
  | _ => false

/-- Python `needle in container` for a string needle: substring test on
a string, membership on a list, key membership on a dict; `TypeError`
otherwise. -/
def pyInStr (needle : String) (container : JVal) : Except String Bool :=
  match container with
  | .str s => .ok (strContains s needle)
  | .arr xs => .ok (xs.any (fun x => pyEqStr x needle))
  | .obj kvs => .ok (kvs.any (fun kv => kv.1 == needle))
  | _ => .error "TypeError: argument is not iterable"

/-- Python `for x in j`: elements of a list, characters of a string,
keys of a dict; `TypeError` otherwise. -/
def pyIter (j : JVal) : Except String (List JVal) :=
  match j with
  | .arr xs => .ok xs
  | .str s => .ok (s.data.map (fun c => JVal.str (String.singleton c)))
  | .obj kvs => .ok (kvs.map (fun kv => JVal.str kv.1))
  | _ => .error "TypeError: object is not iterable"

/-- Python truthiness of a JSON value (`if not x`). -/
def pyFalsy (j : JVal) : Bool :=
  match j with
  | .null => true
  | .bool b => !b
  | .num n => n == 0
  | .str s => s == ""
  | .arr xs => xs.isEmpty
  | .obj kvs => kvs.isEmpty

/-- Python `len(j)`; `TypeError` on values without a length. -/
def pyLen (j : JVal) : Except String Nat :=
  match j with
  | .arr xs => .ok xs.length
  | .str s => .ok s.length
  | .obj kvs => .ok kvs.length
  | _ => .error "TypeError: object has no len"

/-! ## `extract_text_content` -/

/-- The body of the loop of `extract_text_content` (source lines
84–86): `isinstance(item, dict) and item.get("type") == "text"` selects
the item, and `item.get("text", "")` is what gets appended to `texts`. -/
def textOfBlock (item : JVal) : Option JVal :=
  match item with
  | .obj kvs =>
    if pyEqStr ((jLookup kvs "type").getD .null) "text" then
      some ((jLookup kvs "text").getD (.str ""))
    else none
  | _ => none

/-- Python `" ".join(texts)` demands every element be a string; the
first non-string raises `TypeError`. -/
def pyJoinCheck : List JVal → Except String (List String)
  | [] => .ok []
  | .str s :: rest => (pyJoinCheck rest).map (fun l => s :: l)
  | _ :: _ => .error "TypeError: sequence item: expected str instance"

/-- `extract_text_content(msg)` (source lines 79–90).  The result is an
`Except`: `.error` is an uncaught Python exception (non-dict message,
or a `"text"` field that is not a string reaching `" ".join`). -/
def extract_text_content (msg : JVal) : Except String String :=
  match jGetD msg "content" (.arr []) with
  | .error e => .error e
  | .ok content =>
    match content with
    | .arr items =>
      match pyJoinCheck (items.filterMap textOfBlock) with
      | .error e => .error e
      | .ok strs => .ok (pyStrip (String.intercalate " " strs))
    | .str s => .ok (pyStrip s)
    | _ => .ok ""

/-! ## The external CLI and `get_recent_messages`

`subprocess.run(["openclaw", ...])` either completes with an exit code
and captured output, or raises (timeout, spawn failure, bad argument
type).  The environment `Env` supplies the outcome of each call and a
partial JSON-parse function modelling `json.loads` (`none` = the parse
raises `ValueError`). -/

/-- Outcome of one `subprocess.run` invocation as observed inside the
`try` of `run_openclaw`. -/
inductive SpawnOutcome where
  | exn (msg : String) : SpawnOutcome
  | completed (returncode : Int) (stdout stderr : String) : SpawnOutcome

/-- `run_openclaw(*args)` (source lines 23–34): returns
`(returncode == 0, stdout, stderr)`, and `(False, "", str(e))` when
`subprocess.run` raises. -/
def run_openclaw (o : SpawnOutcome) : Bool × String × String :=
  match o with
  | .exn e => (false, "", e)
  | .completed rc out err => (rc == 0, out, err)

/-- The external world as seen by one run of the script: the JSON
parser, the outcome of the `sessions_list` call, and the outcome of the
`sessions_history` call as a function of the session key passed. -/
structure Env where
  jsonParse : String → Option JVal
  listOutcome : SpawnOutcome
  histOutcome : JVal → SpawnOutcome

/-- `json.loads(s)` under environment `env`: `ValueError` when the
parse function rejects. -/
def pyLoads (env : Env) (s : String) : Except String JVal :=
  match env.jsonParse s with
  | some j => .ok j
  | none => .error "Expecting value"

/-- The session-search loop of `get_recent_messages` (source lines
50–54): the first `s` with `s.get("key") == "agent:main:main" or
"main" in s.get("key", "")`; any dynamic-type exception propagates to
the enclosing `try`. -/
def findMain : List JVal → Except String (Option JVal)
  | [] => .ok none
  | s :: rest =>
    match jGet s "key" with
    | .error e => .error e
    | .ok k1 =>
      if pyEqStr k1 "agent:main:main" then .ok (some s)
      else
        match jGetD s "key" (.str "") with
        | .error e => .error e
        | .ok k2 =>
          match pyInStr "main" k2 with
          | .error e => .error e
          | .ok true => .ok (some s)
          | .ok false => findMain rest

/-- The `try` block of `get_recent_messages` (source lines 45–73),
starting after a successful `sessions_list` call with standard output
`stdout`.  `.ok` results carry the returned messages value and the
diagnostics logged on early returns; `.error` is the exception caught
by the `except` clause. -/
def grmTry (env : Env) (stdout : String) : Except String (JVal × List String) :=
  match pyLoads env stdout with
  | .error e => .error e
  | .ok data =>
    match jGetD data "sessions" (.arr []) with
    | .error e => .error e
    | .ok sessions =>
      match pyIter sessions with
      | .error e => .error e
      | .ok items =>
        match findMain items with
        | .error e => .error e
        | .ok none => .ok (.arr [], ["Main session not found"])
        | .ok (some ms) =>
          match jGet ms "key" with
          | .error e => .error e
          | .ok sessionKey =>
            let r2 := run_openclaw (env.histOutcome sessionKey)
            if r2.1 then
              match pyLoads env r2.2.1 with
              | .error e => .error e
              | .ok data2 =>
                match jGetD data2 "messages" (.arr []) with
                | .error e => .error e
                | .ok msgs => .ok (msgs, [])
            else .ok (.arr [], ["Failed to get history: " ++ r2.2.2])

/-- `get_recent_messages()` (source lines 36–77): the returned messages
value and the diagnostics logged to the error stream.  Every failure
path returns the empty list. -/
def get_recent_messages (env : Env) : JVal × List String :=
  let r := run_openclaw env.listOutcome
  if r.1 then
    match grmTry env r.2.1 with
    | .ok (msgs, logs) => (msgs, logs)
    | .error e => (.arr [], ["Error parsing sessions: " ++ e])
  else
    (.arr [], ["Failed to list sessions: " ++ r.2.2])

/-! ## The stream log, `already_captured` and `append_to_stream`

The filesystem state consists of the two fixed paths the script names:
`STREAM_FILE` and `STATE_FILE`.  Each is `Option String`: `none` means
the file does not exist, `some c` that it exists with content `c`. -/

/-- The files at the two fixed paths of the script. -/
structure FS where
  stream : Option String
  stateFile : Option String

/-- `already_captured(hash_val)` (source lines 122–129): `False` when
`STREAM_FILE` does not exist, else whether the literal
`f"hash:{hash_val}"` occurs in its content. -/
def already_captured (hash_val : String) (stream : Option String) : Bool :=
  match stream with
  | none => false
  | some content => strContains content ("hash:" ++ hash_val)

/-- The block `append_to_stream` writes (source lines 141–145), four
buffered writes appended as one entry. -/
def entryBlock (text category timestamp hash_val : String) : String :=
  "\n---\n" ++ "[" ++ timestamp ++ "] [" ++ category ++ "]\n"
    ++ text ++ "\n" ++ "hash:" ++ hash_val ++ "\n"

/-- The content of the stream file, with a missing file reading as
empty (appending with mode `'a'` creates it). -/
def contentOf (fs : FS) : String :=
  fs.stream.getD ""

/-- `append_to_stream(text, category)` (source lines 131–147), with the
formatted timestamp passed explicitly in place of `datetime.now()`:
returns `False` and leaves the filesystem unchanged on a duplicate
digest, else appends the entry block and returns `True`. -/
def append_to_stream (text category timestamp : String) (fs : FS) : Bool × FS :=
  let hash_val := get_hash text
  if already_captured hash_val fs.stream then
    (false, fs)
  else
    let newContent := contentOf fs ++ entryBlock text category timestamp hash_val
    (true, { fs with stream := some newContent })

/-- A straight-line sequence of `append_to_stream` calls (each with its
text, category and timestamp).  Returns the final filesystem and the
digests of the calls that returned `True`, in order. -/
def appendRun : List (String × String × String) → FS → FS × List String
  | [], fs => (fs, [])
  | (text, category, timestamp) :: rest, fs =>
    match append_to_stream text category timestamp fs with
    | (true, fs') =>
      let r := appendRun rest fs'
      (r.1, get_hash text :: r.2)
    | (false, fs') => appendRun rest fs'

/-! ## `main` -/

/-- The per-message loop of `main` (source lines 160–169), threading
the filesystem, the count of captured entries and the diagnostics.  The
`Option String` component is an uncaught exception from
`extract_text_content` terminating the run. -/
def processLoop (timestamp : String) :
    List JVal → FS → Nat → List String → FS × Nat × List String × Option String
  | [], fs, captured, logs => (fs, captured, logs, none)
  | msg :: rest, fs, captured, logs =>
    match extract_text_content msg with
    | .error e => (fs, captured, logs, some e)
    | .ok text =>
      if text == "" then processLoop timestamp rest fs captured logs
      else if is_important text then
        let category := get_category text
        match append_to_stream text category timestamp fs with
        | (true, fs') =>
          processLoop timestamp rest fs' (captured + 1)
            (logs ++ ["Captured: " ++ category])
        | (false, fs') => processLoop timestamp rest fs' captured logs
      else processLoop timestamp rest fs captured logs

/-- `main()` (source lines 149–171), named `pyMain` here because Lean
reserves `main` for executables: the final filesystem, the diagnostics
in order, and an uncaught exception if the run crashed (`len` or
iteration over a non-sized messages value, or a crash in
`extract_text_content`). -/
def pyMain (env : Env) (timestamp : String) (fs : FS) :
    FS × List String × Option String :=
  let startLogs := ["MemoryCapture Franklin starting..."]
  let gr := get_recent_messages env
  if pyFalsy gr.1 then
    (fs, startLogs ++ gr.2 ++ ["No messages found"], none)
  else
    match pyLen gr.1 with
    | .error e => (fs, startLogs ++ gr.2, some e)
    | .ok n =>
      let foundLogs := startLogs ++ gr.2
        ++ ["Found " ++ toString n ++ " messages to analyze"]
      match pyIter gr.1 with
      | .error e => (fs, foundLogs, some e)
      | .ok msgs =>
        let r := processLoop timestamp msgs fs 0 foundLogs
        match r.2.2.2 with
        | some e => (r.1, r.2.2.1, some e)
        | none =>
          (r.1, r.2.2.1
            ++ ["Complete: captured " ++ toString r.2.1 ++ " entries"], none)

/-! ## Auxiliary definitions used by the claim statements -/

/-- Number of (possibly overlapping) occurrence positions of `p` in a
character list. -/
def countOcc (p : List Char) : List Char → Nat
  | [] => if listPrefixOf p [] then 1 else 0
  | c :: rest => (if listPrefixOf p (c :: rest) then 1 else 0) + countOcc p rest

/-- Whether a string is a 16-character lowercase hex digest, the shape
of every `get_hash` output. -/
def isHex16 (d : String) : Bool :=
  d.length == 16 && d.data.all (fun c => ("0123456789abcdef".data).contains c)

/-- The dedup invariant as the claim states it: no digest marker
`hash:<d>` occurs twice in the log content. -/
def MarkerOnce (content : String) : Prop :=
  ∀ d : String, isHex16 d = true →
    countOcc ("hash:" ++ d).data content.data ≤ 1

/-- The string payload of a JSON string value (`""` otherwise). -/
def jStr : JVal → String
  | .str s => s
  | _ => ""

/-- Whether every element of a list of JSON values is a string — the
condition under which Python `" ".join` succeeds. -/
def allStr (l : List JVal) : Bool :=
  l.all (fun j => match j with | .str _ => true | _ => false)

/-- The union of the five keyword groups of `get_category`. -/
def groupUnionKws : List String :=
  decisionKws ++ discoveryKws ++ implementationKws ++ issueKws ++ successKws

/-- The `is_important` keywords that belong to no `get_category` group. -/
def outcomeOnlyKws : List String :=
  ["working", "achieved", "solved", "blocked", "learned", "identified",
   "choose", "selected", "committed"]

/-- The initial filesystem: neither the stream log nor the state file
exists. -/
def fs0 : FS := ⟨none, none⟩

/-- A fixed timestamp for concrete runs. -/
def ts0 : String := "2026-01-01 00:00:00 UTC"

/-- A text whose body itself contains the same digest-marker-shaped
substring twice. -/
def dupText : String :=
  "see hash:0123456789abcdef and again hash:0123456789abcdef here"

/-- The input text of the spec's capture scenario. -/
def scenarioText : String :=
  "We decided to use hashing for deduplication because it's simple"

/-- A message whose single text-typed block carries a non-string
`"text"` field. -/
def badMsg : JVal :=
  .obj [("content", .arr [.obj [("type", .str "text"), ("text", .null)]])]

/-- Content blocks with one text block, one unknown block, one non-dict
element and a second text block. -/
def goodBlocks : List JVal :=
  [.obj [("type", .str "text"), ("text", .str "  hello ")],
   .obj [("type", .str "image"), ("url", .str "x")],
   .str "junk",
   .obj [("type", .str "text"), ("text", .str "world  ")]]

/-- A message carrying `goodBlocks` as its content. -/
def goodMsg : JVal :=
  .obj [("content", .arr goodBlocks)]

/-- An environment in which the very first CLI call raises. -/
def failEnv : Env :=
  ⟨fun _ => none, .exn "boom", fun _ => .exn "boom"⟩

/-- A text longer than 40 characters whose only `is_important` keyword
match is `"working"`. -/
def workingText : String :=
  "The pipeline kept working overnight and nothing odd came up"

/-! ## Substring lemmas -/

theorem listPrefixOf_iff (p l : List Char) :
    listPrefixOf p l = true ↔ ∃ t, l = p ++ t := by
  induction p generalizing l with
  | nil => simp [listPrefixOf]
  | cons a as ih =>
    cases l with
    | nil => simp [listPrefixOf]
    | cons b bs =>
      simp only [listPrefixOf, Bool.and_eq_true, beq_iff_eq, ih,
        List.cons_append, List.cons_eq_cons]
      constructor
      · rintro ⟨rfl, t, rfl⟩
        exact ⟨t, rfl, rfl⟩
      · rintro ⟨t, rfl, rfl⟩
        exact ⟨rfl, t, rfl⟩

theorem hasSub_iff (p l : List Char) :
    hasSub p l = true ↔ ∃ a b, l = a ++ p ++ b := by
  induction l with
  | nil =>
    simp only [hasSub, listPrefixOf_iff]
    constructor
    · rintro ⟨t, ht⟩
      have hp : p = [] ∧ t = [] := List.append_eq_nil.mp ht.symm
      exact ⟨[], [], by simp [hp.1]⟩
    · rintro ⟨a, b, hab⟩
      have h1 : a ++ p = [] ∧ b = [] := List.append_eq_nil.mp hab.symm
      have h2 : a = [] ∧ p = [] := List.append_eq_nil.mp h1.1
      exact ⟨[], by simp [h2.2]⟩
  | cons c rest ih =>
    simp only [hasSub, Bool.or_eq_true, listPrefixOf_iff, ih]
    constructor
    · rintro (⟨t, ht⟩ | ⟨a, b, hab⟩)
      · exact ⟨[], t, by simp [ht]⟩
      · exact ⟨c :: a, b, by simp [hab]⟩
    · rintro ⟨a, b, hab⟩
      cases a with
      | nil =>
        left
        exact ⟨b, by simpa using hab⟩
      | cons a0 as =>
        right
        refine ⟨as, b, ?_⟩
        have := hab
        simp only [List.cons_append, List.cons_eq_cons] at this
        exact this.2

theorem hasSub_of_eq_append {p l a b : List Char} (h : l = a ++ p ++ b) :
    hasSub p l = true :=
  (hasSub_iff p l).mpr ⟨a, b, h⟩

theorem hasSub_append_right {p a : List Char} (b : List Char)
    (h : hasSub p a = true) : hasSub p (a ++ b) = true := by
  obtain ⟨x, y, rfl⟩ := (hasSub_iff p a).mp h
  exact hasSub_of_eq_append (a := x) (b := y ++ b) (by simp [List.append_assoc])

theorem strContains_marker (pre post pat : String) :
    strContains (pre ++ pat ++ post) pat = true := by
  apply hasSub_of_eq_append (a := pre.data) (b := post.data)
  simp [String.data_append]

theorem strContains_append_right (a b pat : String)
    (h : strContains a pat = true) : strContains (a ++ b) pat = true := by
  unfold strContains at h ⊢
  rw [String.data_append]
  exact hasSub_append_right b.data h

/-! ## Lemmas about `append_to_stream` -/

/-- After any call to `append_to_stream` (successful or not), the
digest marker of the text is present in the stream file. -/
theorem captured_after (text category timestamp : String) (fs : FS) :
    already_captured (get_hash text)
      (append_to_stream text category timestamp fs).2.stream = true := by
  unfold append_to_stream
  rcases h : already_captured (get_hash text) fs.stream with _ | _
  · simp only [h, Bool.false_eq_true, if_false]
    show already_captured _ (some _) = true
    unfold already_captured
    have : contentOf fs ++ entryBlock text category timestamp (get_hash text)
        = (contentOf fs ++ ("\n---\n" ++ "[" ++ timestamp ++ "] [" ++ category
            ++ "]\n" ++ text ++ "\n")) ++ ("hash:" ++ get_hash text) ++ "\n" := by
      unfold entryBlock
      simp [String.ext_iff, String.data_append]
    rw [this]
    exact strContains_marker _ _ _
  · simp [h]

/-- A successful append appends exactly the entry block. -/
theorem append_success_content (text category timestamp : String) (fs : FS)
    (h : already_captured (get_hash text) fs.stream = false) :
    append_to_stream text category timestamp fs =
      (true, { fs with stream := some (contentOf fs
        ++ entryBlock text category timestamp (get_hash text)) }) := by
  unfold append_to_stream
  simp [h]

/-- A duplicate append is a no-op. -/
theorem append_duplicate (text category timestamp : String) (fs : FS)
    (h : already_captured (get_hash text) fs.stream = true) :
    append_to_stream text category timestamp fs = (false, fs) := by
  unfold append_to_stream
  simp [h]

/-- Appending never erases a digest marker already in the stream file. -/
theorem captured_mono (d text category timestamp : String) (fs : FS)
    (h : already_captured d fs.stream = true) :
    already_captured d (append_to_stream text category timestamp fs).2.stream
      = true := by
  unfold append_to_stream
  rcases hc : already_captured (get_hash text) fs.stream with _ | _
  · simp only [hc, Bool.false_eq_true, if_false]
    show already_captured _ (some _) = true
    unfold already_captured
    unfold already_captured at h
    cases hs : fs.stream with
    | none => rw [hs] at h; exact absurd h (by simp)
    | some content =>
      rw [hs] at h
      have hcont : contentOf fs = content := by simp [contentOf, hs]
      rw [hcont]
      exact strContains_append_right _ _ _ h
  · simpa [hc]

/-- A call returning `False` left the filesystem unchanged. -/
theorem append_false_eq (text category timestamp : String) (fs : FS)
    (h : (append_to_stream text category timestamp fs).1 = false) :
    (append_to_stream text category timestamp fs).2 = fs := by
  unfold append_to_stream at h ⊢
  cases hc : already_captured (get_hash text) fs.stream <;> simp [hc] at h ⊢

/-- A call returning `True` found the digest marker absent. -/
theorem append_true_not_captured (text category timestamp : String) (fs : FS)
    (h : (append_to_stream text category timestamp fs).1 = true) :
    already_captured (get_hash text) fs.stream = false := by
  cases hc : already_captured (get_hash text) fs.stream
  · rfl
  · rw [append_duplicate text category timestamp fs hc] at h
    exact absurd h (by simp)

/-- Appending never touches the state file. -/
theorem append_stateFile (text category timestamp : String) (fs : FS) :
    (append_to_stream text category timestamp fs).2.stateFile = fs.stateFile := by
  unfold append_to_stream
  cases hc : already_captured (get_hash text) fs.stream <;> simp [hc]

/-- `append_to_stream` reads and writes only the stream file: its
result at state-file content `st` is its result at state-file content
`none`, with `st` carried through. -/
theorem append_state_indep (text category timestamp : String)
    (stream st : Option String) :
    append_to_stream text category timestamp ⟨stream, st⟩
      = ((append_to_stream text category timestamp ⟨stream, none⟩).1,
         ⟨(append_to_stream text category timestamp ⟨stream, none⟩).2.stream, st⟩) := by
  unfold append_to_stream
  cases h : already_captured (get_hash text) stream <;> simp [h, contentOf]

/-- Case folding fixes a pattern with no ASCII capitals, so raw
containment survives `lower()`. -/
theorem strContains_pyLower (text pat : String)
    (hfix : pat.data.map lowerChar = pat.data)
    (h : strContains text pat = true) :
    strContains (pyLower text) pat = true := by
  unfold strContains at h ⊢
  obtain ⟨a, b, hab⟩ := (hasSub_iff pat.data text.data).mp h
  apply hasSub_of_eq_append (a := a.map lowerChar) (b := b.map lowerChar)
  show (pyLower text).data = _
  unfold pyLower
  rw [hab]
  simp [hfix]

/-- Python `" ".join` succeeds on a list of strings and returns their
(seperator-interleaved) concatenation. -/
theorem pyJoinCheck_ok (l : List JVal) (h : allStr l = true) :
    pyJoinCheck l = .ok (l.map jStr) := by
  induction l with
  | nil => rfl
  | cons j rest ih =>
    cases j with
    | str s =>
      have hrest : allStr rest = true := by
        unfold allStr at h ⊢
        rw [List.all_cons, Bool.and_eq_true] at h
        exact h.2
      simp [pyJoinCheck, ih hrest, jStr, Except.map]
    | null => simp [allStr] at h
    | bool b => simp [allStr] at h
    | num n => simp [allStr] at h
    | arr xs => simp [allStr] at h
    | obj kvs => simp [allStr] at h

/-! ## Sanity: the MD5 embedding agrees with reference digests -/

example : get_hash "abc" = "900150983cd24fb0" := by decide
example : get_hash "" = "d41d8cd98f00b204" := by decide
example : get_hash scenarioText = "871abeae53cc36fa" := by decide

/-! ## Claim C1 -/

/-- C1: `append_to_stream` is idempotent for duplicate text: when the
log already holds the digest marker of `hash(text)` the call returns
`False` and writes nothing; when it does not, the call returns `True`
and appends exactly the one entry block; and in a back-to-back pair of
calls with identical text and category the second call always returns
`False` and leaves the log exactly as it was after the first. -/
theorem claim1_appendEntry_idempotent
    (text category ts1 ts2 : String) (fs : FS) :
    (already_captured (get_hash text) fs.stream = true →
      append_to_stream text category ts1 fs = (false, fs)) ∧
    (already_captured (get_hash text) fs.stream = false →
      (append_to_stream text category ts1 fs).1 = true ∧
      (append_to_stream text category ts1 fs).2.stream =
        some (contentOf fs ++ entryBlock text category ts1 (get_hash text))) ∧
    ((append_to_stream text category ts2
        (append_to_stream text category ts1 fs).2).1 = false ∧
     (append_to_stream text category ts2
        (append_to_stream text category ts1 fs).2).2 =
       (append_to_stream text category ts1 fs).2) := by
  refine ⟨fun h => append_duplicate _ _ _ _ h, fun h => ?_, ?_⟩
  · rw [append_success_content _ _ _ _ h]
    exact ⟨rfl, rfl⟩
  · have hc := captured_after text category ts1 fs
    rw [append_duplicate _ _ _ _ hc]
    exact ⟨rfl, rfl⟩

/-- C1 witness: starting from no log file, appending `scenarioText`
twice appends once (first call returns `True`) and the second call
returns `False`. -/
theorem claim1_witness :
    (append_to_stream scenarioText "decision" ts0 fs0).1 = true ∧
    (append_to_stream scenarioText "decision" ts0
      (append_to_stream scenarioText "decision" ts0 fs0).2).1 = false :=
  ⟨((claim1_appendEntry_idempotent scenarioText "decision" ts0 ts0 fs0).2.1
      (by rfl)).1,
   (claim1_appendEntry_idempotent scenarioText "decision" ts0 ts0 fs0).2.2.1⟩

/-! ## Claim C2 -/

/-- C2: round-trip — immediately after a successful
`append_to_stream(text, category)`, `already_captured(hash(text))` is
true on the resulting log content, the appended block carrying the
literal `hash:<digest>` marker. -/
theorem claim2_roundtrip (text category timestamp : String) (fs : FS)
    (_hsuccess : (append_to_stream text category timestamp fs).1 = true) :
    already_captured (get_hash text)
      (append_to_stream text category timestamp fs).2.stream = true :=
  captured_after text category timestamp fs

/-- C2 witness: a concrete successful append from an absent log file is
immediately found by `already_captured`. -/
theorem claim2_witness :
    already_captured (get_hash workingText)
      (append_to_stream workingText "outcome" ts0 fs0).2.stream = true :=
  claim2_roundtrip workingText "outcome" ts0 fs0 (by rfl)

/-! ## Claim C3 -/

/-- C3 counterexample: the raw-occurrence form of the dedup invariant
is not preserved.  From an empty log (in which no digest marker occurs
twice), one `append_to_stream` call whose text itself contains the
marker-shaped substring `hash:0123456789abcdef` twice produces a log in
which that digest marker occurs twice. -/
theorem claim3_counterexample :
    MarkerOnce (contentOf fs0) ∧
    ¬ MarkerOnce (contentOf (appendRun [(dupText, "outcome", ts0)] fs0).1) := by
  constructor
  · intro d _
    show countOcc _ [] ≤ 1
    unfold countOcc
    split <;> simp
  · intro hmo
    exact absurd (hmo "0123456789abcdef" (by decide)) (by decide)

/-- C3 (amended): what the code does guarantee for every
single-threaded sequence of `append_to_stream` calls from any starting
log: the digests of the calls that actually appended are pairwise
distinct, and none of their markers was present in the initial log.
The raw-occurrence form of the invariant fails only because an entry's
free text may itself contain marker-shaped substrings. -/
theorem claim3_amended (reqs : List (String × String × String)) (fs : FS) :
    List.Pairwise (fun a b => a ≠ b) (appendRun reqs fs).2 ∧
    ∀ d ∈ (appendRun reqs fs).2, already_captured d fs.stream = false := by
  induction reqs generalizing fs with
  | nil => simp [appendRun]
  | cons r rest ih =>
    obtain ⟨text, category, ts⟩ := r
    rcases hap : append_to_stream text category ts fs with ⟨b, fs'⟩
    cases b
    · have hrun : appendRun ((text, category, ts) :: rest) fs
          = appendRun rest fs' := by
        simp only [appendRun, hap]
      have hfalse : (append_to_stream text category ts fs).1 = false := by
        rw [hap]
      have hfs' : fs' = fs := by
        have h2 := append_false_eq text category ts fs hfalse
        rw [hap] at h2
        exact h2
      rw [hrun, hfs']
      exact ih fs
    · have hrun : appendRun ((text, category, ts) :: rest) fs
          = ((appendRun rest fs').1, get_hash text :: (appendRun rest fs').2) := by
        simp only [appendRun, hap]
      have htrue : (append_to_stream text category ts fs).1 = true := by
        rw [hap]
      have hnc : already_captured (get_hash text) fs.stream = false :=
        append_true_not_captured text category ts fs htrue
      have hcapAfter : already_captured (get_hash text) fs'.stream = true := by
        have h2 := captured_after text category ts fs
        rw [hap] at h2
        exact h2
      obtain ⟨ihp, iha⟩ := ih fs'
      rw [hrun]
      constructor
      · refine List.Pairwise.cons ?_ ihp
        intro d hd heq
        have hdf := iha d hd
        rw [← heq] at hdf
        rw [hcapAfter] at hdf
        exact absurd hdf (by simp)
      · intro d hd
        rcases List.mem_cons.mp hd with rfl | hd'
        · exact hnc
        · by_contra hcapfs
          have htrue2 : already_captured d fs.stream = true := by
            cases hx : already_captured d fs.stream
            · exact absurd hx hcapfs
            · rfl
          have hmono := captured_mono d text category ts fs htrue2
          rw [hap] at hmono
          rw [iha d hd'] at hmono
          exact absurd hmono (by simp)

/-- C3 witness: instantiating the amended invariant on a concrete
one-call run from the empty-filesystem state. -/
theorem claim3_witness :
    already_captured (get_hash dupText) fs0.stream = false :=
  (claim3_amended [(dupText, "outcome", ts0)] fs0).2 (get_hash dupText)
    (by exact List.mem_singleton.mpr rfl)

/-! ## Claim C4 -/

/-- C4: `is_important(text)` is true iff the text is longer than 40
characters and its lowercasing contains at least one keyword of the
fixed list as a substring; in particular any text shorter than 41
characters is unimportant regardless of keyword content. -/
theorem claim4_is_important (text : String) :
    (is_important text = true ↔
      40 < text.length ∧ ∃ kw ∈ keywords, strContains (pyLower text) kw = true) ∧
    (text.length < 41 → is_important text = false) := by
  constructor
  · unfold is_important anyKw
    simp only [Bool.and_eq_true, List.any_eq_true, decide_eq_true_eq]
    constructor
    · rintro ⟨⟨kw, hkw, hc⟩, hlen⟩
      exact ⟨hlen, kw, hkw, hc⟩
    · rintro ⟨hlen, kw, hkw, hc⟩
      exact ⟨⟨kw, hkw, hc⟩, hlen⟩
  · intro hlen
    unfold is_important
    have h40 : ¬ (40 < text.length) := by omega
    simp [h40]

/-- C4 witness: the short text of the spec's second scenario is
unimportant although it is keyword-free anyway, and a 63-character
keyword-bearing text is important. -/
theorem claim4_witness :
    is_important "ok" = false ∧ is_important scenarioText = true :=
  ⟨(claim4_is_important "ok").2 (by decide),
   (claim4_is_important scenarioText).1.mpr
     ⟨by decide, "decided", by decide, by decide⟩⟩

/-! ## Claim C5 -/

/-- C5: `get_category` tries the five keyword groups in the fixed
priority order decision > discovery > implementation > issue > success
and returns the first matching group's category, else `"outcome"`; in
particular a text containing both `"decided"` and `"fixed"` is
classified `"decision"`. -/
theorem claim5_get_category (text : String) :
    (anyKw decisionKws (pyLower text) = true → get_category text = "decision") ∧
    (anyKw decisionKws (pyLower text) = false →
     anyKw discoveryKws (pyLower text) = true → get_category text = "discovery") ∧
    (anyKw decisionKws (pyLower text) = false →
     anyKw discoveryKws (pyLower text) = false →
     anyKw implementationKws (pyLower text) = true →
       get_category text = "implementation") ∧
    (anyKw decisionKws (pyLower text) = false →
     anyKw discoveryKws (pyLower text) = false →
     anyKw implementationKws (pyLower text) = false →
     anyKw issueKws (pyLower text) = true → get_category text = "issue") ∧
    (anyKw decisionKws (pyLower text) = false →
     anyKw discoveryKws (pyLower text) = false →
     anyKw implementationKws (pyLower text) = false →
     anyKw issueKws (pyLower text) = false →
     anyKw successKws (pyLower text) = true → get_category text = "success") ∧
    (anyKw decisionKws (pyLower text) = false →
     anyKw discoveryKws (pyLower text) = false →
     anyKw implementationKws (pyLower text) = false →
     anyKw issueKws (pyLower text) = false →
     anyKw successKws (pyLower text) = false → get_category text = "outcome") ∧
    (strContains text "decided" = true → strContains text "fixed" = true →
      get_category text = "decision") := by
  refine ⟨?_, ?_, ?_, ?_, ?_, ?_, ?_⟩
  · intro h1
    simp [get_category, h1]
  · intro h1 h2
    simp [get_category, h1, h2]
  · intro h1 h2 h3
    simp [get_category, h1, h2, h3]
  · intro h1 h2 h3 h4
    simp [get_category, h1, h2, h3, h4]
  · intro h1 h2 h3 h4 h5
    simp [get_category, h1, h2, h3, h4, h5]
  · intro h1 h2 h3 h4 h5
    simp [get_category, h1, h2, h3, h4, h5]
  · intro hdec _hfix
    have hlow := strContains_pyLower text "decided" (by decide) hdec
    have hany : anyKw decisionKws (pyLower text) = true :=
      List.any_eq_true.mpr ⟨"decided", by decide, hlow⟩
    simp [get_category, hany]

/-- C5 witness: a text containing both `"decided"` and `"fixed"` is
classified `"decision"` by the tie-break. -/
theorem claim5_witness :
    get_category "We decided this and fixed that" = "decision" :=
  (claim5_get_category "We decided this and fixed that").2.2.2.2.2.2
    (by decide) (by decide)

/-! ## Claim C6 -/

/-- When every possible `sessions_history` call fails (by subprocess
failure or by unparseable output), the `try` body either raises (to be
caught by the `except`) or returns the empty list with one diagnostic. -/
theorem grmTry_shape (env : Env) (stdout : String)
    (h : ∀ k, (run_openclaw (env.histOutcome k)).1 = false
            ∨ env.jsonParse (run_openclaw (env.histOutcome k)).2.1 = none) :
    (∃ e, grmTry env stdout = .error e)
    ∨ (∃ msg, grmTry env stdout = .ok (JVal.arr [], [msg])) := by
  unfold grmTry
  cases hp : pyLoads env stdout with
  | error e => exact Or.inl ⟨e, by simp [hp]⟩
  | ok data =>
    cases hs : jGetD data "sessions" (.arr []) with
    | error e => exact Or.inl ⟨e, by simp [hp, hs]⟩
    | ok sessions =>
      cases hi : pyIter sessions with
      | error e => exact Or.inl ⟨e, by simp [hp, hs, hi]⟩
      | ok items =>
        cases hf : findMain items with
        | error e => exact Or.inl ⟨e, by simp [hp, hs, hi, hf]⟩
        | ok mo =>
          cases mo with
          | none => exact Or.inr ⟨"Main session not found", by simp [hp, hs, hi, hf]⟩
          | some ms =>
            cases hk : jGet ms "key" with
            | error e => exact Or.inl ⟨e, by simp [hp, hs, hi, hf, hk]⟩
            | ok sessionKey =>
              rcases h sessionKey with hfail | hparse
              · refine Or.inr ⟨"Failed to get history: "
                  ++ (run_openclaw (env.histOutcome sessionKey)).2.2, ?_⟩
                simp [hp, hs, hi, hf, hk, hfail]
              · cases hr : (run_openclaw (env.histOutcome sessionKey)).1 with
                | false =>
                  refine Or.inr ⟨"Failed to get history: "
                    ++ (run_openclaw (env.histOutcome sessionKey)).2.2, ?_⟩
                  simp [hp, hs, hi, hf, hk, hr]
                | true =>
                  refine Or.inl ⟨"Expecting value", ?_⟩
                  simp [hp, hs, hi, hf, hk, hr, pyLoads, hparse]

/-- C6: `get_recent_messages` fails soft — if the `sessions_list` call
fails (non-zero exit, timeout or spawn exception), or its output does
not parse as JSON, or every possible `sessions_history` call fails in
one of those ways, then the function returns the empty message list and
logs at least one diagnostic; no exception escapes (the embedding is a
total function whose every failure path is a caught branch). -/
theorem claim6_fetch_fails_soft (env : Env)
    (h : (run_openclaw env.listOutcome).1 = false
       ∨ env.jsonParse (run_openclaw env.listOutcome).2.1 = none
       ∨ ∀ k, (run_openclaw (env.histOutcome k)).1 = false
            ∨ env.jsonParse (run_openclaw (env.histOutcome k)).2.1 = none) :
    (get_recent_messages env).1 = JVal.arr []
      ∧ (get_recent_messages env).2 ≠ [] := by
  unfold get_recent_messages
  rcases h with h | h | h
  · simp [h]
  · cases hr : (run_openclaw env.listOutcome).1 with
    | false => simp [hr]
    | true =>
      simp only [hr, if_true]
      have hg : grmTry env (run_openclaw env.listOutcome).2.1
          = .error "Expecting value" := by
        unfold grmTry pyLoads
        rw [h]
      rw [hg]
      simp
  · cases hr : (run_openclaw env.listOutcome).1 with
    | false => simp [hr]
    | true =>
      simp only [hr, if_true]
      rcases grmTry_shape env (run_openclaw env.listOutcome).2.1 h with
        ⟨e, he⟩ | ⟨msg, hm⟩
      · rw [he]
        simp
      · rw [hm]
        simp

/-- C6 witness: in an environment where the very first CLI call raises,
`get_recent_messages` returns the empty list and one diagnostic. -/
theorem claim6_witness :
    (get_recent_messages failEnv).1 = JVal.arr []
      ∧ (get_recent_messages failEnv).2 ≠ [] :=
  claim6_fetch_fails_soft failEnv (Or.inl (by rfl))

/-! ## Claim C7 -/

/-- C7 counterexample: `extract_text_content` does not return a string
for every message — on a message whose single text-typed block carries
`"text": null`, the Python code reaches `" ".join([None])` and raises
`TypeError` instead of returning. -/
theorem claim7_counterexample :
    extract_text_content badMsg
      = Except.error "TypeError: sequence item: expected str instance" := by
  rfl

/-- C7 (amended): for every message, `extract_text_content` returns the
trimmed content when the content field is a string; and when the
content field is a list all of whose selected `"text"` fields are
strings, it returns the trimmed space-join of exactly the `"text"`
fields of the dict elements tagged `"type": "text"`, every other block
shape being ignored.  (A non-string `"text"` field instead raises, per
the counterexample.) -/
theorem claim7_extractText (kvs : List (String × JVal)) :
    (∀ s, jLookup kvs "content" = some (.str s) →
      extract_text_content (.obj kvs) = .ok (pyStrip s)) ∧
    (∀ items, jLookup kvs "content" = some (.arr items) →
      allStr (items.filterMap textOfBlock) = true →
      extract_text_content (.obj kvs)
        = .ok (pyStrip (String.intercalate " "
            ((items.filterMap textOfBlock).map jStr)))) := by
  have hred : jGetD (JVal.obj kvs) "content" (JVal.arr [])
      = .ok ((jLookup kvs "content").getD (JVal.arr [])) := rfl
  constructor
  · intro s h
    unfold extract_text_content
    rw [hred, h]
    rfl
  · intro items h hall
    unfold extract_text_content
    rw [hred, h]
    show (match pyJoinCheck (items.filterMap textOfBlock) with
      | Except.error e => (Except.error e : Except String String)
      | Except.ok strs => Except.ok (pyStrip (String.intercalate " " strs))) = _
    rw [pyJoinCheck_ok _ hall]

/-- C7 witness: on a concrete message with a text block, an
unknown-typed block, a stray non-dict element and a second text block,
extraction returns the trimmed space-join of the two text fields. -/
theorem claim7_witness :
    extract_text_content goodMsg = .ok "hello  world" :=
  ((claim7_extractText [("content", .arr goodBlocks)]).2 goodBlocks
    (by rfl) (by decide)).trans (by rfl)

/-! ## Claim C8 -/

/-- C8 counterexample: the scenario text
"We decided to use hashing for deduplication because it's simple" is 63
characters long, not 68, so the claim's conjunction fails at its length
conjunct (the behavioural conjuncts hold, see the amended theorem). -/
theorem claim8_counterexample :
    ¬ (scenarioText.length = 68 ∧ is_important scenarioText = true
       ∧ get_category scenarioText = "decision") :=
  fun h => absurd h.1 (by decide)

/-- C8 (amended): the scenario text is 63 characters long and contains
"decided"; `is_important` accepts it, `get_category` classifies it
`"decision"`, and when the log does not yet contain its digest marker,
`append_to_stream` appends the formatted entry (which carries the newly
computed digest) and returns `True`. -/
theorem claim8_scenario (timestamp : String) (fs : FS)
    (hnew : already_captured (get_hash scenarioText) fs.stream = false) :
    scenarioText.length = 63 ∧
    strContains scenarioText "decided" = true ∧
    is_important scenarioText = true ∧
    get_category scenarioText = "decision" ∧
    (append_to_stream scenarioText "decision" timestamp fs).1 = true ∧
    (append_to_stream scenarioText "decision" timestamp fs).2.stream =
      some (contentOf fs
        ++ entryBlock scenarioText "decision" timestamp (get_hash scenarioText)) := by
  refine ⟨by decide, by decide, by decide, by decide, ?_, ?_⟩
  · rw [append_success_content _ _ _ _ hnew]
  · rw [append_success_content _ _ _ _ hnew]

/-- C8 witness: the scenario run from the empty filesystem. -/
theorem claim8_witness :
    (append_to_stream scenarioText "decision" ts0 fs0).1 = true :=
  (claim8_scenario ts0 fs0 (by rfl)).2.2.2.2.1

/-! ## Claim C9 -/

/-- The message loop reads and writes only the stream file: its run at
state-file content `st` equals its run at state-file content `none`
with `st` carried through unchanged. -/
theorem processLoop_state (timestamp : String) (msgs : List JVal)
    (stream st : Option String) (captured : Nat) (logs : List String) :
    processLoop timestamp msgs ⟨stream, st⟩ captured logs
      = (⟨(processLoop timestamp msgs ⟨stream, none⟩ captured logs).1.stream, st⟩,
         (processLoop timestamp msgs ⟨stream, none⟩ captured logs).2) := by
  induction msgs generalizing stream captured logs with
  | nil => simp [processLoop]
  | cons m rest ih =>
    cases hx : extract_text_content m with
    | error e => simp [processLoop, hx]
    | ok text =>
      simp only [processLoop, hx]
      cases ht : (text == "") with
      | true =>
        simp only [ht, if_true]
        exact ih stream captured logs
      | false =>
        simp only [ht, Bool.false_eq_true, if_false]
        cases hi : is_important text with
        | false =>
          simp only [hi, Bool.false_eq_true, if_false]
          exact ih stream captured logs
        | true =>
          simp only [hi, if_true]
          rcases hap : append_to_stream text (get_category text) timestamp
              ⟨stream, none⟩ with ⟨b, fsn⟩
          have hfsn : fsn = ⟨fsn.stream, none⟩ := by
            have h2 := append_stateFile text (get_category text) timestamp
              ⟨stream, none⟩
            rw [hap] at h2
            cases fsn
            simpa using h2
          have hap2 : append_to_stream text (get_category text) timestamp
              ⟨stream, st⟩ = (b, ⟨fsn.stream, st⟩) := by
            rw [append_state_indep, hap]
          rw [hap2]
          cases b
          · show processLoop timestamp rest ⟨fsn.stream, st⟩ captured logs = _
            rw [ih fsn.stream captured logs, ← hfsn]
          · show processLoop timestamp rest ⟨fsn.stream, st⟩ (captured + 1) _ = _
            rw [ih fsn.stream (captured + 1)
              (logs ++ ["Captured: " ++ get_category text]), ← hfsn]

/-- C9: the reserved capture-state file is never read and never written
by a run of `main`: its content is carried through every run unchanged,
and no component of the run's outcome (stream-log content, diagnostics,
crash status) depends on it. -/
theorem claim9_state_file_untouched (env : Env) (timestamp : String)
    (stream st : Option String) :
    (pyMain env timestamp ⟨stream, st⟩).1.stateFile = st ∧
    (pyMain env timestamp ⟨stream, st⟩).1.stream
      = (pyMain env timestamp ⟨stream, none⟩).1.stream ∧
    (pyMain env timestamp ⟨stream, st⟩).2
      = (pyMain env timestamp ⟨stream, none⟩).2 := by
  unfold pyMain
  cases hgf : pyFalsy (get_recent_messages env).1 with
  | true => simp [hgf]
  | false =>
    simp only [hgf, Bool.false_eq_true, if_false]
    cases hlen : pyLen (get_recent_messages env).1 with
    | error e => simp
    | ok n =>
      cases hit : pyIter (get_recent_messages env).1 with
      | error e => simp
      | ok msgs =>
        dsimp only
        rw [processLoop_state]
        cases herr : (processLoop timestamp msgs ⟨stream, none⟩ 0
            (["MemoryCapture Franklin starting..."] ++ (get_recent_messages env).2
              ++ ["Found " ++ toString n ++ " messages to analyze"])).2.2.2 with
        | some e => simp [herr]
        | none => simp [herr]

/-! ## Claim C10 -/

/-- C10: the `is_important` keyword list strictly contains the union of
the `get_category` groups, so a long text whose only keyword matches
come from the nine group-less keywords (`working`, `achieved`,
`solved`, `blocked`, `learned`, `identified`, `choose`, `selected`,
`committed`) is accepted by `is_important` yet classified `"outcome"`. -/
theorem claim10_important_but_outcome (text : String)
    (hlen : 40 < text.length)
    (hsome : ∃ kw ∈ outcomeOnlyKws, strContains (pyLower text) kw = true)
    (honly : ∀ kw ∈ keywords, strContains (pyLower text) kw = true →
      kw ∈ outcomeOnlyKws) :
    ((∀ kw ∈ groupUnionKws, kw ∈ keywords) ∧
      ∃ kw, kw ∈ keywords ∧ kw ∉ groupUnionKws) ∧
    is_important text = true ∧ get_category text = "outcome" := by
  refine ⟨⟨by decide, "working", by decide, by decide⟩, ?_, ?_⟩
  · obtain ⟨kw, hkwmem, hkc⟩ := hsome
    have hsub : ∀ k ∈ outcomeOnlyKws, k ∈ keywords := by decide
    have hany : anyKw keywords (pyLower text) = true :=
      List.any_eq_true.mpr ⟨kw, hsub kw hkwmem, hkc⟩
    simp [is_important, hany, hlen]
  · have hgroup : ∀ g : List String,
        (∀ k ∈ g, k ∈ keywords ∧ k ∉ outcomeOnlyKws) →
        anyKw g (pyLower text) = false := by
      intro g hginc
      cases hx : anyKw g (pyLower text) with
      | false => rfl
      | true =>
        obtain ⟨kw, hkmem, hkc⟩ := List.any_eq_true.mp hx
        have h1 := hginc kw hkmem
        exact absurd (honly kw h1.1 hkc) h1.2
    have h1 := hgroup decisionKws (by decide)
    have h2 := hgroup discoveryKws (by decide)
    have h3 := hgroup implementationKws (by decide)
    have h4 := hgroup issueKws (by decide)
    have h5 := hgroup successKws (by decide)
    simp [get_category, h1, h2, h3, h4, h5]

/-- C10 witness: a 59-character text whose only keyword match is
`"working"` is important yet classified `"outcome"`. -/
theorem claim10_witness :
    is_important workingText = true ∧ get_category workingText = "outcome" :=
  (claim10_important_but_outcome workingText (by decide)
    ⟨"working", by decide, by decide⟩ (by decide)).2
